import Mathlib

/-!
Verification of the event-ticket-scraper core (src/scraper.py, src/models.py)
against its natural-language specification.

The Python source is shallowly embedded: JSON values become the `Json`
inductive; Python dict/list accesses that can raise become computations in
`Except String`; the fixed retry loop of `_api_request` becomes a structural
recursion over the remaining backoff schedule; the pagination `while` loops
become fuel-indexed recursions (the fuel of 1001 is never exhausted because
the page index strictly increases each iteration and the deep-paging guard
stops every run before the page index reaches 1000); the current wall-clock
time consumed by `_now_iso` is passed in as an explicit `now` argument.
-/

namespace TicketScraper

/-- A JSON value, as delivered by `resp.json()` in the Python source.
Numbers are modelled as rationals (Python ints and floats). -/
inductive Json where
  | null : Json
  | bool : Bool → Json
  | num : ℚ → Json
  | str : String → Json
  | arr : List Json → Json
  | obj : List (String × Json) → Json

/-- Python `==` on the JSON values that can enter the seen-ratio set: only
hashable values reach Python set membership, and the image-extraction step
raises `TypeError` for the unhashable ones (lists and dicts), so the values
compared here are always scalars.  (Python additionally equates `True` with
`1`; JSON ratio values are strings in practice and neither model takes a
stand on that corner.) -/
def Json.scalarEq : Json → Json → Bool
  | .null, .null => true
  | .bool a, .bool b => a == b
  | .num a, .num b => a == b
  | .str a, .str b => a == b
  | _, _ => false

/-- Membership of a JSON value in a list (Python `in` over a set of seen
values, equality-based). -/
def memJ (x : Json) : List Json → Bool
  | [] => false
  | y :: ys => Json.scalarEq x y || memJ x ys

/-- First-match lookup in a JSON object field list (Python dict lookup). -/
def lookupKey : List (String × Json) → String → Option Json
  | [], _ => none
  | (k, v) :: rest, key => if k = key then some v else lookupKey rest key

/-- Python `d.get(key, default)`: the default applies only when the key is
absent; a key present with value `null` yields `null`.  Calling `.get` on a
non-dict raises `AttributeError`. -/
def Json.get (j : Json) (k : String) (dflt : Json) : Except String Json :=
  match j with
  | .obj fs => .ok ((lookupKey fs k).getD dflt)
  | _ => .error ("AttributeError: get called on non-dict")

/-- Python truthiness of a JSON value: `None`, `False`, `0`, empty string,
empty list and empty dict are falsy. -/
def Json.truthy : Json → Bool
  | .null => false
  | .bool b => b
  | .num q => q != 0
  | .str s => s != ""
  | .arr xs => !xs.isEmpty
  | .obj fs => !fs.isEmpty

/-- Python `a or b`: `a` when truthy, else `b`. -/
def pyOr (a b : Json) : Json := if a.truthy then a else b

/-- Coercion of a JSON value into a `str`-typed pydantic field: only actual
strings are accepted (pydantic v2 does not coerce numbers to str). -/
def Json.asStr : Json → Except String String
  | .str s => .ok s
  | _ => .error ("ValidationError: str expected")

/-- Python `s.strip()`: remove leading and trailing whitespace.  (Defined over
the character list so that it reduces definitionally; `String.trim` from core
is extensionally the same but is compiled by well-founded recursion.) -/
def py_strip (s : String) : String :=
  String.mk (((s.data.dropWhile Char.isWhitespace).reverse.dropWhile
    Char.isWhitespace).reverse)

/-- Digits-to-Nat accumulator; fails on any non-digit character. -/
def parseDigitsAcc : List Char → Nat → Option Nat
  | [], acc => some acc
  | c :: cs, acc =>
    if c.isDigit then parseDigitsAcc cs (acc * 10 + (c.toNat - 48)) else none

/-- Model of Python `float(s)` on strings: optional surrounding whitespace,
optional sign, decimal digits with at most one decimal point.  (The exotic
accepted forms — exponents, `inf`, `nan`, underscores — are not modelled;
no claim exercises them.)  Returns `none` where Python raises `ValueError`. -/
def parseFloatLit (s : String) : Option ℚ :=
  let cs := (py_strip s).toList
  let sgn : ℚ × List Char :=
    match cs with
    | '+' :: rest => (1, rest)
    | '-' :: rest => (-1, rest)
    | rest => (1, rest)
  let ip := sgn.2.takeWhile (fun c => c ≠ '.')
  let rest := sgn.2.dropWhile (fun c => c ≠ '.')
  match rest with
  | [] =>
    if ip.isEmpty then none
    else (parseDigitsAcc ip 0).map (fun n => sgn.1 * n)
  | _ :: fp =>
    if fp.any (fun c => c = '.') then none
    else if ip.isEmpty && fp.isEmpty then none
    else
      match parseDigitsAcc ip 0, parseDigitsAcc fp 0 with
      | some ipn, some fpn =>
        some (sgn.1 * ((ipn : ℚ) + (fpn : ℚ) / ((10 : ℚ) ^ fp.length)))
      | _, _ => none

/-- Model of `_safe_float` from scraper.py: convert to float, 0.0 on failure.
Python `float(True) = 1.0`; lists/dicts raise `TypeError`, which the source
catches and maps to 0.0. -/
def safe_float (v : Json) : ℚ :=
  match v with
  | .null => 0
  | .bool b => if b then 1 else 0
  | .num q => q
  | .str s => (parseFloatLit s).getD 0
  | .arr _ => 0
  | .obj _ => 0

/-- Coercion of a JSON value into a `float`-typed pydantic field: numbers pass
through, numeric strings are parsed, everything else is a validation error. -/
def asFloatField : Json → Except String ℚ
  | .num q => .ok q
  | .str s =>
    match parseFloatLit s with
    | some q => .ok q
    | none => .error ("ValidationError: float expected")
  | _ => .error ("ValidationError: float expected")

/-- Coercion of a JSON value into an `int`-typed pydantic field. -/
def asIntField : Json → Except String Int
  | .num q => if q.den = 1 then .ok q.num else .error ("ValidationError: int expected")
  | _ => .error ("ValidationError: int expected")

/-- Python `xs[0]`: first element of a list, first character of a string;
`KeyError` on dicts (JSON object keys are strings), `TypeError` otherwise. -/
def Json.item0 : Json → Except String Json
  | .arr (x :: _) => .ok x
  | .arr [] => .error ("IndexError: list index out of range")
  | .obj _ => .error ("KeyError: 0")
  | .str s => if s.isEmpty then .error ("IndexError") else .ok (.str (s.take 1))
  | _ => .error ("TypeError: not subscriptable")

/-- Python `for x in j`: lists iterate elements, dicts iterate keys,
strings iterate one-character strings; other values raise `TypeError`. -/
def Json.iterate : Json → Except String (List Json)
  | .arr xs => .ok xs
  | .obj fs => .ok (fs.map (fun p => Json.str p.1))
  | .str s => .ok (s.toList.map (fun c => Json.str c.toString))
  | _ => .error ("TypeError: not iterable")

/-- The pattern `j.get(k, "") or ""` followed by assignment to a `str` field:
used for every string field of the output records. -/
def getStrField (j : Json) (k : String) : Except String String := do
  let v ← j.get k (Json.str (""))
  (pyOr v (Json.str (""))).asStr

/-- Model of `ScraperInput` from models.py: validated scraper configuration.
Defaults mirror the pydantic field defaults. -/
structure ScraperInput where
  api_key : String := ""
  mode : String := "search"
  keyword : String := ""
  event_id : String := ""
  city : String := ""
  state_code : String := ""
  country_code : String := ""
  postal_code : String := ""
  latlong : String := ""
  radius : Option Int := none
  unit : String := "miles"
  classification_name : String := ""
  start_date_time : String := ""
  end_date_time : String := ""
  sort : String := "relevance,desc"
  source : String := ""
  include_family : String := ""
  max_results : Nat := 100
  request_interval_secs : ℚ := 1/2
deriving DecidableEq

/-- Model of `ScraperInput.validate_input` from models.py: returns an error string if
the input is invalid, else `none`.  Python `x not in (a, b, c)` is translated
to the corresponding negated disjunction, and `not x.strip()` to
`py_strip x = ""`. -/
def validate_input (c : ScraperInput) : Option String :=
  if (py_strip c.api_key) = "" then
    some ("Ticketmaster API key is required. Get one for free at https://developer.ticketmaster.com/")
  else if ¬ (c.mode = "search" ∨ c.mode = "get_event" ∨ c.mode = "venues") then
    some ("Invalid mode: " ++ c.mode ++ ". Use search, get_event, or venues.")
  else if c.mode = "get_event" ∧ (py_strip c.event_id) = "" then
    some ("Event ID is required for get_event mode.")
  else if c.mode = "search" ∧ (py_strip c.keyword) = "" ∧ (py_strip c.city) = "" ∧
      (py_strip c.state_code) = "" ∧ (py_strip c.country_code) = "" ∧ (py_strip c.postal_code) = "" ∧
      (py_strip c.latlong) = "" ∧ (py_strip c.classification_name) = "" then
    some ("Provide at least one search filter: keyword, city, stateCode, countryCode, postalCode, latlong, or classificationName.")
  else if ¬ (c.unit = "miles" ∨ c.unit = "km") then
    some ("Invalid unit: " ++ c.unit ++ ". Use miles or km.")
  else
    none

/-- Model of `PresaleRecord` from models.py. -/
structure PresaleRecord where
  name : String := ""
  start_date_time : String := ""
  end_date_time : String := ""
  description : String := ""
  url : String := ""
deriving DecidableEq

/-- Model of `EventRecord` from models.py: one event from Ticketmaster; every field has
a default, so output never has missing keys. -/
structure EventRecord where
  schema_version : String := "1.0"
  type : String := "event"
  event_name : String := ""
  event_id : String := ""
  event_url : String := ""
  local_date : String := ""
  local_time : String := ""
  datetime_utc : String := ""
  timezone : String := ""
  status : String := ""
  price_min : ℚ := 0
  price_max : ℚ := 0
  price_currency : String := ""
  venue_name : String := ""
  venue_id : String := ""
  venue_city : String := ""
  venue_state : String := ""
  venue_country : String := ""
  venue_address : String := ""
  venue_postal_code : String := ""
  venue_latitude : ℚ := 0
  venue_longitude : ℚ := 0
  attractions : List String := []
  segment : String := ""
  genre : String := ""
  sub_genre : String := ""
  public_sale_start : String := ""
  public_sale_end : String := ""
  presales : List PresaleRecord := []
  promoter : String := ""
  seatmap_url : String := ""
  images : List String := []
  info : String := ""
  please_note : String := ""
  ticket_limit : String := ""
  accessibility_info : String := ""
  source : String := "ticketmaster"
  scraped_at : String := ""
deriving DecidableEq

/-- Model of `VenueRecord` from models.py: one venue from Ticketmaster. -/
structure VenueRecord where
  schema_version : String := "1.0"
  type : String := "venue"
  venue_name : String := ""
  venue_id : String := ""
  venue_url : String := ""
  city : String := ""
  state : String := ""
  country : String := ""
  address : String := ""
  postal_code : String := ""
  latitude : ℚ := 0
  longitude : ℚ := 0
  timezone : String := ""
  parking_detail : String := ""
  general_info : String := ""
  child_rule : String := ""
  accessible_seating_detail : String := ""
  upcoming_events_count : Int := 0
  images : List String := []
  source : String := "ticketmaster"
  scraped_at : String := ""
deriving DecidableEq

/-- Extraction pass of the image-selection logic (scraper.py lines 482-495):
for each candidate image, its sort key `i.get("width", 0)` (which must be
orderable for Python `sorted`), its `ratio` value (which must be hashable —
set membership — whenever the `url` is truthy and therefore reaches the
`ratio not in seen_ratios` test), and its `url` value. -/
def extractImage (img : Json) : Except String (ℚ × Json × Json) := do
  let w ← img.get ("width") (Json.num 0)
  let wq ←
    match w with
    | Json.num q => Except.ok q
    | Json.bool b => Except.ok (if b then (1 : ℚ) else 0)
    | _ => Except.error ("TypeError: unorderable sort key")
  let rt ← img.get ("ratio") (Json.str (""))
  let u ← img.get ("url") (Json.str (""))
  if u.truthy then
    match rt with
    | Json.arr _ => Except.error ("TypeError: unhashable ratio value")
    | Json.obj _ => Except.error ("TypeError: unhashable ratio value")
    | _ => Except.ok (wq, rt, u)
  else Except.ok (wq, rt, u)

/-- Stable insertion of one keyed image into a width-descending sorted list:
the new element is placed before the first element of strictly smaller width,
so elements of equal width keep their relative order (Python `sorted` with
`reverse=True` is stable). -/
def insertImageDesc (x : ℚ × Json × Json) : List (ℚ × Json × Json) → List (ℚ × Json × Json)
  | [] => [x]
  | y :: ys => if x.1 < y.1 then y :: insertImageDesc x ys else x :: y :: ys

/-- Stable sort of keyed images by width descending, i.e.
`sorted(images_data, key=lambda i: i.get("width", 0), reverse=True)`. -/
def sortImagesDesc (l : List (ℚ × Json × Json)) : List (ℚ × Json × Json) :=
  l.foldr insertImageDesc []

/-- The selection loop of scraper.py lines 490-495: walk the sorted images,
keep a url whenever it is truthy and its ratio value has not been seen yet. -/
def pickImages : List (ℚ × Json × Json) → List Json → List Json
  | [], _ => []
  | (_, rt, u) :: rest, seen =>
    if u.truthy then
      if memJ rt seen then pickImages rest seen
      else u :: pickImages rest (rt :: seen)
    else pickImages rest seen

/-- Image selection of `_event_to_record` (scraper.py lines 482-495): extract
keys, sort by width descending, pick the first truthy url per unseen ratio,
then validate the picked urls as the `list[str]` field `images`. -/
def selectImageUrls (imgs : List Json) : Except String (List String) := do
  let ex ← imgs.mapM extractImage
  (pickImages (sortImagesDesc ex) []).mapM Json.asStr

/-- Modelled from the spec words for image selection: after sorting by width
descending, keep only the images whose url is present (truthy), and of those
keep at most one — the first seen — per distinct ratio value, in
ratio-first-seen order. -/
def specPickImages : List (ℚ × Json × Json) → List Json
  | [] => []
  | (_, rt, u) :: rest =>
    u :: specPickImages (rest.filter (fun q => !(Json.scalarEq q.2.1 rt)))
termination_by l => l.length
decreasing_by
  simp only [List.length_cons]
  exact Nat.lt_succ_of_le (List.length_filter_le _ _)

/-- Spec-side image selection: sort by width descending, drop entries with no
url, keep the first url per distinct ratio, then the same field validation. -/
def specSelectImageUrls (imgs : List Json) : Except String (List String) := do
  let ex ← imgs.mapM extractImage
  (specPickImages ((sortImagesDesc ex).filter (fun q => q.2.2.truthy))).mapM Json.asStr

/-- Classification extraction of `_event_to_record` (scraper.py lines
439-458): take the first classification entry, read the segment, genre and
sub-genre names with the `or ""` defaulting, and blank the provider
placeholder literal `"Undefined"`. -/
def classificationNames (classifications : Json) :
    Except String (String × String × String) :=
  if classifications.truthy then do
    let cls0 ← classifications.item0
    let seg ← cls0.get ("segment") (Json.obj [])
    let gen ← cls0.get ("genre") (Json.obj [])
    let sub ← cls0.get ("subGenre") (Json.obj [])
    let s ← getStrField seg ("name")
    let g ← getStrField gen ("name")
    let sg ← getStrField sub ("name")
    Except.ok (if s = "Undefined" then ("") else s,
               if g = "Undefined" then ("") else g,
               if sg = "Undefined" then ("") else sg)
  else Except.ok ((""), (""), (""))

/-- Model of `_event_to_record` from scraper.py: convert a Ticketmaster event API
object to an `EventRecord`.  The current UTC timestamp produced by
`_now_iso()` is passed in as `now`.  Pydantic field validation (performed in
Python when the `EventRecord(...)` constructor runs) is modelled by the
`asStr` / `asFloatField` coercions. -/
def event_to_record (now : String) (event : Json) : Except String EventRecord := do
  let dates ← event.get ("dates") (Json.obj [])
  let start ← dates.get ("start") (Json.obj [])
  let status_data ← dates.get ("status") (Json.obj [])
  let price_ranges ← event.get ("priceRanges") (Json.arr [])
  let prices ←
    if price_ranges.truthy then do
      let pr ← price_ranges.item0
      let mn ← pr.get ("min") (Json.num 0)
      let mx ← pr.get ("max") (Json.num 0)
      let cur ← pr.get ("currency") (Json.str (""))
      Except.ok (pyOr mn (Json.num 0), pyOr mx (Json.num 0), pyOr cur (Json.str ("")))
    else Except.ok (Json.num 0, Json.num 0, Json.str (""))
  let embedded ← event.get ("_embedded") (Json.obj [])
  let venues ← embedded.get ("venues") (Json.arr [])
  let venue ← if venues.truthy then venues.item0 else Except.ok (Json.obj [])
  let venue_loc ← venue.get ("location") (Json.obj [])
  let attractions_data ← embedded.get ("attractions") (Json.arr [])
  let attrs ← attractions_data.iterate
  let attraction_names ← attrs.foldlM (fun ns a => do
      let c ← a.get ("name") Json.null
      if c.truthy then do
        let n ← a.get ("name") (Json.str (""))
        let s ← n.asStr
        Except.ok (ns ++ [s])
      else Except.ok ns) []
  let classifications ← event.get ("classifications") (Json.arr [])
  let cls ← classificationNames classifications
  let sales ← event.get ("sales") (Json.obj [])
  let public_sale ← sales.get ("public") (Json.obj [])
  let presales_data ← sales.get ("presales") (Json.arr [])
  let ps_items ← presales_data.iterate
  let presales ← ps_items.mapM (fun ps => do
      let n ← getStrField ps ("name")
      let sdt ← getStrField ps ("startDateTime")
      let edt ← getStrField ps ("endDateTime")
      let d ← getStrField ps ("description")
      let u ← getStrField ps ("url")
      Except.ok ({ name := n, start_date_time := sdt, end_date_time := edt,
                   description := d, url := u } : PresaleRecord))
  let promoter_data ← event.get ("promoter") (Json.obj [])
  let promoter_name ← getStrField promoter_data ("name")
  let seatmap ← event.get ("seatmap") (Json.obj [])
  let images_data ← event.get ("images") (Json.arr [])
  let imgs ← images_data.iterate
  let image_urls ← selectImageUrls imgs
  let venue_address_obj ← venue.get ("address") (Json.obj [])
  let venue_city_obj ← venue.get ("city") (Json.obj [])
  let venue_state_obj ← venue.get ("state") (Json.obj [])
  let venue_country_obj ← venue.get ("country") (Json.obj [])
  let event_name ← getStrField event ("name")
  let event_idv ← getStrField event ("id")
  let event_url ← getStrField event ("url")
  let local_date ← getStrField start ("localDate")
  let local_time ← getStrField start ("localTime")
  let datetime_utc ← getStrField start ("dateTime")
  let tz ← getStrField dates ("timezone")
  let status ← getStrField status_data ("code")
  let price_min ← asFloatField prices.1
  let price_max ← asFloatField prices.2.1
  let price_currency ← prices.2.2.asStr
  let venue_name ← getStrField venue ("name")
  let venue_idv ← getStrField venue ("id")
  let venue_city ← getStrField venue_city_obj ("name")
  let venue_state ← getStrField venue_state_obj ("name")
  let venue_country ← getStrField venue_country_obj ("name")
  let venue_address ← getStrField venue_address_obj ("line1")
  let venue_postal ← getStrField venue ("postalCode")
  let vlat ← venue_loc.get ("latitude") Json.null
  let vlong ← venue_loc.get ("longitude") Json.null
  let public_sale_start ← getStrField public_sale ("startDateTime")
  let public_sale_end ← getStrField public_sale ("endDateTime")
  let seatmap_url ← getStrField seatmap ("staticUrl")
  let info_text ← getStrField event ("info")
  let please_note ← getStrField event ("pleaseNote")
  let tl ← event.get ("ticketLimit") (Json.obj [])
  let ticket_limit ← getStrField (pyOr tl (Json.obj [])) ("info")
  let acc_obj ← event.get ("accessibility") (Json.obj [])
  let accessibility_info ← getStrField (pyOr acc_obj (Json.obj [])) ("info")
  Except.ok {
    event_name := event_name, event_id := event_idv, event_url := event_url,
    local_date := local_date, local_time := local_time,
    datetime_utc := datetime_utc, timezone := tz, status := status,
    price_min := price_min, price_max := price_max,
    price_currency := price_currency,
    venue_name := venue_name, venue_id := venue_idv, venue_city := venue_city,
    venue_state := venue_state, venue_country := venue_country,
    venue_address := venue_address, venue_postal_code := venue_postal,
    venue_latitude := safe_float vlat, venue_longitude := safe_float vlong,
    attractions := attraction_names,
    segment := cls.1, genre := cls.2.1, sub_genre := cls.2.2,
    public_sale_start := public_sale_start, public_sale_end := public_sale_end,
    presales := presales, promoter := promoter_name,
    seatmap_url := seatmap_url, images := image_urls,
    info := info_text, please_note := please_note,
    ticket_limit := ticket_limit, accessibility_info := accessibility_info,
    scraped_at := now }

/-- Model of `_venue_to_record` from scraper.py: convert a Ticketmaster venue API
object to a `VenueRecord`. -/
def venue_to_record (now : String) (venue : Json) : Except String VenueRecord := do
  let location ← venue.get ("location") (Json.obj [])
  let address ← venue.get ("address") (Json.obj [])
  let city_obj ← venue.get ("city") (Json.obj [])
  let state_obj ← venue.get ("state") (Json.obj [])
  let country_obj ← venue.get ("country") (Json.obj [])
  let general_info ← venue.get ("generalInfo") (Json.obj [])
  let images_data ← venue.get ("images") (Json.arr [])
  let imgs ← images_data.iterate
  let image_urls ← imgs.foldlM (fun us img => do
      let c ← img.get ("url") Json.null
      if c.truthy then do
        let u ← img.get ("url") (Json.str (""))
        let s ← u.asStr
        Except.ok (us ++ [s])
      else Except.ok us) []
  let upcoming ← venue.get ("upcomingEvents") (Json.obj [])
  let upcoming_raw ←
    match upcoming with
    | Json.obj fs => (Json.obj fs).get ("_total") (Json.num 0)
    | _ => Except.ok (Json.num 0)
  let upcoming_count ← asIntField upcoming_raw
  let venue_name ← getStrField venue ("name")
  let venue_idv ← getStrField venue ("id")
  let venue_url ← getStrField venue ("url")
  let city ← getStrField city_obj ("name")
  let state ← getStrField state_obj ("name")
  let country ← getStrField country_obj ("name")
  let addr ← getStrField address ("line1")
  let postal ← getStrField venue ("postalCode")
  let vlat ← location.get ("latitude") Json.null
  let vlong ← location.get ("longitude") Json.null
  let tz ← getStrField venue ("timezone")
  let parking ← getStrField general_info ("parkingDetail")
  let general_rule ← getStrField general_info ("generalRule")
  let child_rule ← getStrField general_info ("childRule")
  let accessible ← getStrField venue ("accessibleSeatingDetail")
  Except.ok {
    venue_name := venue_name, venue_id := venue_idv, venue_url := venue_url,
    city := city, state := state, country := country, address := addr,
    postal_code := postal,
    latitude := safe_float vlat, longitude := safe_float vlong,
    timezone := tz, parking_detail := parking, general_info := general_rule,
    child_rule := child_rule, accessible_seating_detail := accessible,
    upcoming_events_count := upcoming_count, images := image_urls,
    scraped_at := now }

/-- An HTTP response as seen by `_api_request`: its status code, its raw
`Retry-After` header (`none` when the header is absent), and its JSON body. -/
structure TMResponse where
  status : Nat
  retry_after : Option String := none
  body : Json := Json.null

/-- Outcome of one underlying `httpx` GET: either a transport-level error
(`httpx.HTTPError`: connection error, timeout) or a response. -/
inductive AttemptOutcome where
  | transportError : AttemptOutcome
  | response : TMResponse → AttemptOutcome

/-- Constant `EventTicketScraper._MAX_RETRIES`. -/
def MAX_RETRIES : Nat := 3

/-- Constant `EventTicketScraper._BACKOFF_SECS` (seconds, as rationals); its length is
`MAX_RETRIES`. -/
def BACKOFF_SECS : List ℚ := [5, 15, 30]

/-- The wait computed before a 429 retry (scraper.py lines 122-129): a present
non-empty `Retry-After` header is parsed with `parse` (Python `float`); on
parse failure or an absent/empty header, fall back to the backoff entry `b`
for the current attempt. -/
def retry_wait_secs (parse : String → Option ℚ) (h : Option String) (b : ℚ) : ℚ :=
  match h with
  | some s => if s ≠ "" then (parse s).getD b else b
  | none => b

/-- Modelled from the spec: the wait before a 429 retry is the server-supplied
`Retry-After` header parsed as seconds when present and parsable, else the
fixed backoff schedule entry indexed by the attempt number. -/
def specWait (parse : String → Option ℚ) (h : Option String) (attempt : Nat) : ℚ :=
  match h with
  | some s => (parse s).getD (BACKOFF_SECS.getD attempt 0)
  | none => BACKOFF_SECS.getD attempt 0

/-- The retry loop of `_api_request`, from the attempt numbered `attempt`
with `backoffs` the remaining backoff schedule (`BACKOFF_SECS.drop attempt`;
the loop bound `attempt >= _MAX_RETRIES` is exactly the exhaustion of that
schedule, and `_BACKOFF_SECS[attempt]` its head).  `stream n` is the outcome
of the n-th GET.  Returns the result (`none` is the Failure sentinel), the
list of backoff sleeps performed, and the number of attempts made. -/
def apiRequestGo (parse : String → Option ℚ) (stream : Nat → AttemptOutcome) :
    Nat → List ℚ → Option TMResponse × List ℚ × Nat
  | attempt, backoffs =>
    match stream attempt with
    | .transportError => (none, [], 1)
    | .response r =>
      if r.status = 401 then (none, [], 1)
      else if r.status = 400 then (none, [], 1)
      else if r.status ≠ 429 then (some r, [], 1)
      else
        match backoffs with
        | [] => (none, [], 1)
        | b :: rest =>
          let w := retry_wait_secs parse r.retry_after b
          let out := apiRequestGo parse stream (attempt + 1) rest
          (out.1, w :: out.2.1, out.2.2 + 1)

/-- Model of `_api_request` from scraper.py: GET with retry and backoff on 429.
`parse` models Python `float` applied to the `Retry-After` header. -/
def api_request (parse : String → Option ℚ) (stream : Nat → AttemptOutcome) :
    Option TMResponse × List ℚ × Nat :=
  apiRequestGo parse stream 0 BACKOFF_SECS

/-- Constant `_TM_PAGE_SIZE`: the maximum page size allowed by the API. -/
def TM_PAGE_SIZE : Nat := 200

/-- Constant `_TM_DEEP_PAGE_LIMIT`: `size * page` must stay below this. -/
def TM_DEEP_PAGE_LIMIT : Nat := 1000

/-- The decoded body of a 200 search response: the embedded collection
(`none` when `_embedded` is falsy or lacks the expected key), and the
`page.totalPages` / `page.totalElements` counters. -/
structure PageBody (α : Type) where
  embedded : Option (List α)
  totalPages : Nat := 0
  totalElements : Nat := 0

/-- Outcome of `_api_request` + status check for one search page request:
the Failure sentinel, or a response with its status and decoded body. -/
inductive FetchOutcome (α : Type) where
  | failure : FetchOutcome α
  | response : Nat → PageBody α → FetchOutcome α

/-- The pagination `while` loop shared by `_search_events` and
`_search_venues` (scraper.py lines 178-271 and 328-398; the two loops are
textually identical up to the embedded key, the query filters — absorbed here
into `fetch` — and the normalizer `norm`).  `fetch page` is the outcome of
the page request for page index `page`.  Returns the list of issued page
requests as `(size, page)` pairs and the list of yielded records.  `fuel`
bounds the recursion; since the page index grows by 1 every iteration
that continues and the deep-paging guard stops any run whose page index
reaches `TM_DEEP_PAGE_LIMIT` (the page size is at least 1 inside the loop),
the initial fuel of 1001 used below is never exhausted. -/
def search_page_loop {α β : Type} (norm : α → β) (maxResults : Nat)
    (fetch : Nat → FetchOutcome α) :
    Nat → Nat → Nat → List (Nat × Nat) × List β
  | _, _, 0 => ([], [])
  | totalYielded, page, fuel + 1 =>
    if totalYielded < maxResults then
      let remaining := maxResults - totalYielded
      let pageSize := min TM_PAGE_SIZE remaining
      if TM_DEEP_PAGE_LIMIT ≤ pageSize * page then ([], [])
      else
        match fetch page with
        | .failure => ([(pageSize, page)], [])
        | .response status body =>
          if status ≠ 200 then ([(pageSize, page)], [])
          else
            match body.embedded with
            | none => ([(pageSize, page)], [])
            | some items =>
              if remaining < items.length then
                ([(pageSize, page)], (items.take remaining).map norm)
              else
                if body.totalPages ≤ page + 1 then
                  ([(pageSize, page)], items.map norm)
                else
                  let rest := search_page_loop norm maxResults fetch
                    (totalYielded + items.length) (page + 1) fuel
                  ((pageSize, page) :: rest.1, items.map norm ++ rest.2)
    else ([], [])

/-- Model of `_search_events` from scraper.py, as a function of the result cap and of
the per-page fetch outcome; yields `(requests, records)`. -/
def search_events {α β : Type} (norm : α → β) (maxResults : Nat)
    (fetch : Nat → FetchOutcome α) : List (Nat × Nat) × List β :=
  search_page_loop norm maxResults fetch 0 0 1001

/-- Model of `_search_venues` from scraper.py: structurally identical to
`_search_events` with the venue normalizer and the `venues` embedded key. -/
def search_venues {α β : Type} (norm : α → β) (maxResults : Nat)
    (fetch : Nat → FetchOutcome α) : List (Nat × Nat) × List β :=
  search_page_loop norm maxResults fetch 0 0 1001

/-- The synthetic record yielded by `_get_event` on HTTP 404
(scraper.py lines 288-295). -/
def not_found_record (event_id now : String) : EventRecord :=
  { event_name := "Event not found: " ++ event_id,
    event_id := event_id,
    scraped_at := now }

/-- Model of `_get_event` from scraper.py: look up a single event by ID.  The yielded
records are returned as a list (`Except` because `_event_to_record` can
raise). -/
def get_event (now : String) (cfg_event_id : String)
    (parse : String → Option ℚ) (stream : Nat → AttemptOutcome) :
    Except String (List EventRecord) :=
  let event_id := py_strip cfg_event_id
  match (api_request parse stream).1 with
  | none => Except.ok []
  | some r =>
    if r.status = 404 then Except.ok [not_found_record event_id now]
    else if r.status ≠ 200 then Except.ok []
    else (event_to_record now r.body).map (fun rec => [rec])

/-- Modelled from the spec: the configuration invariant stated for
`ScraperConfig` — mode is one of `search`, `get_event`, `venues`; `get_event`
requires a non-empty (after stripping) event id; `search` requires at least
one non-empty filter among keyword, city, stateCode, countryCode, postalCode,
latlong and classificationName; unit is `miles` or `km`.  The claim asserts
`validate_input` errors exactly on violations of this invariant. -/
def claim_invariant_violated (c : ScraperInput) : Prop :=
  (¬ (c.mode = "search" ∨ c.mode = "get_event" ∨ c.mode = "venues"))
  ∨ (c.mode = "get_event" ∧ py_strip c.event_id = "")
  ∨ (c.mode = "search" ∧ py_strip c.keyword = "" ∧ py_strip c.city = "" ∧
     py_strip c.state_code = "" ∧ py_strip c.country_code = "" ∧
     py_strip c.postal_code = "" ∧ py_strip c.latlong = "" ∧
     py_strip c.classification_name = "")
  ∨ (¬ (c.unit = "miles" ∨ c.unit = "km"))

/-! ## Theorems -/

/-- Inversion of a successful `Except` bind. -/
theorem ex_bind_ok {α β : Type} {x : Except String α} {f : α → Except String β}
    {r : β} : (x >>= f = Except.ok r) ↔ ∃ a, x = Except.ok a ∧ f a = Except.ok r := by
  cases x <;> simp [Bind.bind, Except.bind]

/-- The wait the code computes from the backoff entry for attempt `i` agrees
with the spec-side wait, given that Python `float` rejects the empty string. -/
theorem retry_wait_eq_specWait (parse : String → Option ℚ) (o : Option String)
    (i : Nat) (hp : parse ("") = none) :
    retry_wait_secs parse o (BACKOFF_SECS.getD i 0) = specWait parse o i := by
  cases o with
  | none => rfl
  | some s =>
    by_cases hs : s = ""
    · subst hs; simp [retry_wait_secs, specWait, hp]
    · simp [retry_wait_secs, specWait, hs]

/-- C1: for every sequence of responses in which each attempt yields HTTP 429,
`_api_request` makes exactly 4 attempts (initial plus 3 retries) and then
returns the Failure sentinel `none`; before each retry it waits the seconds
given by a parsable `Retry-After` header when present, and otherwise the fixed
schedule 5s, 15s, 30s indexed by attempt number. -/
theorem api_request_429_four_attempts (parse : String → Option ℚ)
    (rs : Nat → TMResponse) (h429 : ∀ n, (rs n).status = 429)
    (hp : parse ("") = none) :
    api_request parse (fun n => .response (rs n)) =
      (none, [specWait parse (rs 0).retry_after 0,
              specWait parse (rs 1).retry_after 1,
              specWait parse (rs 2).retry_after 2], 4) := by
  have w0 := retry_wait_eq_specWait parse (rs 0).retry_after 0 hp
  have w1 := retry_wait_eq_specWait parse (rs 1).retry_after 1 hp
  have w2 := retry_wait_eq_specWait parse (rs 2).retry_after 2 hp
  simp [BACKOFF_SECS, List.getD] at w0 w1 w2
  simp [api_request, apiRequestGo, BACKOFF_SECS, h429, w0, w1, w2]

/-- Witness for C1 at a concrete input: an absent `Retry-After` header on
every attempt gives the fixed 5/15/30 schedule. -/
theorem api_request_429_four_attempts_witness :
    api_request (fun _ => none) (fun _ => .response { status := 429 }) =
      (none, [5, 15, 30], 4) := by
  have h := api_request_429_four_attempts (fun _ => none)
    (fun _ => { status := 429 }) (fun _ => rfl) rfl
  simpa [specWait, BACKOFF_SECS] using h

/-- C9: `_api_request` returns the Failure sentinel immediately, with no
retry, on a transport-level error, HTTP 401 or HTTP 400 at the first attempt;
and any response whose status is none of 401, 400 and 429 — reached after a
(possibly empty) prefix of 429 responses within the retry budget — is
returned to the caller as-is. -/
theorem api_request_non_retryable_and_passthrough
    (parse : String → Option ℚ) (stream : Nat → AttemptOutcome) :
    (stream 0 = .transportError → api_request parse stream = (none, [], 1))
  ∧ (∀ r, stream 0 = .response r → r.status = 401 →
      api_request parse stream = (none, [], 1))
  ∧ (∀ r, stream 0 = .response r → r.status = 400 →
      api_request parse stream = (none, [], 1))
  ∧ (∀ k, k ≤ MAX_RETRIES →
      (∀ i, i < k → ∃ ri, stream i = .response ri ∧ ri.status = 429) →
      ∀ r, stream k = .response r →
        r.status ≠ 401 → r.status ≠ 400 → r.status ≠ 429 →
        (api_request parse stream).1 = some r ∧
        (api_request parse stream).2.2 = k + 1) := by
  refine ⟨?_, ?_, ?_, ?_⟩
  · intro h; simp [api_request, apiRequestGo, h, BACKOFF_SECS]
  · intro r h hs; simp [api_request, apiRequestGo, h, hs, BACKOFF_SECS]
  · intro r h hs
    simp [api_request, apiRequestGo, h, hs, BACKOFF_SECS]
  · intro k hk hpre r hr h1 h2 h3
    simp only [MAX_RETRIES] at hk
    interval_cases k
    · simp [api_request, apiRequestGo, hr, h1, h2, h3, BACKOFF_SECS]
    · obtain ⟨r0, e0, s0⟩ := hpre 0 (by norm_num)
      simp [api_request, apiRequestGo, e0, s0, hr, h1, h2, h3, BACKOFF_SECS]
    · obtain ⟨r0, e0, s0⟩ := hpre 0 (by norm_num)
      obtain ⟨r1, e1, s1⟩ := hpre 1 (by norm_num)
      simp [api_request, apiRequestGo, e0, s0, e1, s1, hr, h1, h2, h3, BACKOFF_SECS]
    · obtain ⟨r0, e0, s0⟩ := hpre 0 (by norm_num)
      obtain ⟨r1, e1, s1⟩ := hpre 1 (by norm_num)
      obtain ⟨r2, e2, s2⟩ := hpre 2 (by norm_num)
      simp [api_request, apiRequestGo, e0, s0, e1, s1, e2, s2, hr, h1, h2, h3,
        BACKOFF_SECS]

/-- Witness for C9 at a concrete input: one 429 followed by a 404; the 404 is
returned as-is on the second attempt. -/
theorem api_request_non_retryable_and_passthrough_witness :
    (api_request (fun _ => none)
      (fun n => if n = 0 then .response { status := 429 }
                else .response { status := 404 })).1 =
      some { status := 404 } ∧
    (api_request (fun _ => none)
      (fun n => if n = 0 then .response { status := 429 }
                else .response { status := 404 })).2.2 = 2 :=
  (api_request_non_retryable_and_passthrough (fun _ => none) _).2.2.2 1
    (by norm_num [MAX_RETRIES])
    (fun i hi => ⟨{ status := 429 }, by interval_cases i; simp, rfl⟩)
    { status := 404 } (by simp) (by simp) (by simp) (by simp)

/-- The pagination loop never yields more records than the remaining cap. -/
theorem search_page_loop_records_le {α β : Type} (norm : α → β)
    (maxResults : Nat) (fetch : Nat → FetchOutcome α) :
    ∀ fuel ty page,
      (search_page_loop norm maxResults fetch ty page fuel).2.length ≤
        maxResults - ty := by
  intro fuel
  induction fuel with
  | zero => intro ty page; simp [search_page_loop]
  | succ n ih =>
    intro ty page
    simp only [search_page_loop]
    split
    · split
      · simp
      · split
        · simp
        · split
          · simp
          · split
            · simp
            · split
              · simp only [List.length_map, List.length_take]
                omega
              · split
                · simp only [List.length_map]
                  omega
                · rename_i items heq2 hlen htp
                  have hrec := ih (ty + items.length) (page + 1)
                  simp only [List.length_append, List.length_map]
                  omega
    · simp

/-- Every page request issued by the pagination loop passes the deep-paging
guard: its size times its page index is below the ceiling. -/
theorem search_page_loop_requests_lt {α β : Type} (norm : α → β)
    (maxResults : Nat) (fetch : Nat → FetchOutcome α) :
    ∀ fuel ty page p,
      p ∈ (search_page_loop norm maxResults fetch ty page fuel).1 →
      p.1 * p.2 < TM_DEEP_PAGE_LIMIT := by
  intro fuel
  induction fuel with
  | zero => intro ty page p hp; simp [search_page_loop] at hp
  | succ n ih =>
    intro ty page p hp
    simp only [search_page_loop] at hp
    split at hp
    · split at hp
      · simp at hp
      · rename_i hlt hguard
        split at hp
        · simp at hp
          subst hp
          simpa using Nat.lt_of_not_le hguard
        · split at hp
          · simp at hp
            subst hp
            simpa using Nat.lt_of_not_le hguard
          · split at hp
            · simp at hp
              subst hp
              simpa using Nat.lt_of_not_le hguard
            · split at hp
              · simp at hp
                subst hp
                simpa using Nat.lt_of_not_le hguard
              · split at hp
                · simp at hp
                  subst hp
                  simpa using Nat.lt_of_not_le hguard
                · simp only [List.mem_cons] at hp
                  rcases hp with hp | hp
                  · subst hp
                    simpa using Nat.lt_of_not_le hguard
                  · exact ih _ _ _ hp
    · simp at hp

/-- C4: neither paginator (`_search_events` nor `_search_venues`) ever issues
a page request whose `size * page` reaches the provider deep-paging ceiling
of 1000: the loop terminates before issuing such a request. -/
theorem paginators_deep_paging_guard {α β γ δ : Type} (norme : α → β)
    (normv : γ → δ) (maxResultsE maxResultsV : Nat)
    (fetchE : Nat → FetchOutcome α) (fetchV : Nat → FetchOutcome γ) :
    (∀ p, p ∈ (search_events norme maxResultsE fetchE).1 →
      p.1 * p.2 < 1000)
  ∧ (∀ p, p ∈ (search_venues normv maxResultsV fetchV).1 →
      p.1 * p.2 < 1000) :=
  ⟨fun p hp => search_page_loop_requests_lt norme maxResultsE fetchE _ _ _ p hp,
   fun p hp => search_page_loop_requests_lt normv maxResultsV fetchV _ _ _ p hp⟩

/-- Witness for C4 at a concrete input: with a cap of 5 and a failing fetch,
the single issued request is (5, 0) and 5 * 0 < 1000. -/
theorem paginators_deep_paging_guard_witness :
    (5 : Nat) * 0 < 1000 ∧ (5 : Nat) * 0 < 1000 :=
  ⟨(paginators_deep_paging_guard (id : Nat → Nat) (id : Nat → Nat) 5 5
      (fun _ => .failure) (fun _ => .failure)).1 (5, 0) (by decide),
   (paginators_deep_paging_guard (id : Nat → Nat) (id : Nat → Nat) 5 5
      (fun _ => .failure) (fun _ => .failure)).2 (5, 0) (by decide)⟩

/-- Auxiliary form of the C2 statement with symbolic fuel `n + 2`, so the
pagination loop can be unfolded without looping on a fuel literal. -/
theorem search_cap_150_aux {α β : Type} (norm : α → β)
    (fetch : Nat → FetchOutcome α) (n : Nat) :
    (search_page_loop norm 150 fetch 0 0 (n + 2)).1.head? = some (150, 0)
  ∧ (∀ items tp te,
      fetch 0 = .response 200
        { embedded := some items, totalPages := tp, totalElements := te } →
      150 ≤ items.length →
      (search_page_loop norm 150 fetch 0 0 (n + 2)).1 = [(150, 0)] ∧
      (search_page_loop norm 150 fetch 0 0 (n + 2)).2 =
        (items.take 150).map norm) := by
  constructor
  · rw [search_page_loop]
    norm_num [TM_PAGE_SIZE, TM_DEEP_PAGE_LIMIT]
    split
    · simp
    · split
      · split
        · simp
        · split
          · simp
          · split <;> simp
      · simp
  · intro items tp te hf hlen
    rw [search_page_loop]
    norm_num [TM_PAGE_SIZE, TM_DEEP_PAGE_LIMIT, hf]
    rcases Nat.lt_or_ge 150 items.length with hgt | hge
    · simp [hgt]
    · have heq : items.length = 150 := Nat.le_antisymm hge hlen
      have hnlt : ¬ (150 < items.length) := by omega
      rw [if_neg hnlt]
      by_cases htp : tp ≤ 1
      · rw [if_pos htp]
        refine ⟨rfl, ?_⟩
        rw [List.take_of_length_le (by simp [heq])]
      · rw [if_neg htp]
        rw [search_page_loop]
        rw [if_neg (show ¬ items.length < 150 by omega)]
        refine ⟨rfl, ?_⟩
        rw [List.take_of_length_le (by simp [heq])]
        simp

/-- C2: with a result cap of 150, `_search_events` requests the first page
with size `min 200 150 = 150`, yields at most 150 records, and — whenever the
first page carries at least 150 items — stops at the cap, yielding exactly
the first 150 items of that page and issuing no further page request
regardless of the provider-reported `totalPages`. -/
theorem search_events_cap_150 {α β : Type} (norm : α → β)
    (fetch : Nat → FetchOutcome α) :
    (search_events norm 150 fetch).1.head? = some (150, 0)
  ∧ (search_events norm 150 fetch).2.length ≤ 150
  ∧ (∀ items tp te,
      fetch 0 = .response 200
        { embedded := some items, totalPages := tp, totalElements := te } →
      150 ≤ items.length →
      (search_events norm 150 fetch).1 = [(150, 0)] ∧
      (search_events norm 150 fetch).2 = (items.take 150).map norm) := by
  have h := search_cap_150_aux norm fetch 999
  exact ⟨h.1, by simpa using search_page_loop_records_le norm 150 fetch 1001 0 0,
    h.2⟩

set_option maxRecDepth 10000 in
/-- Witness for C2 at a concrete input: a first page of 150 items with a
reported totalPages of 99 produces exactly one request of size 150 for page 0
and the 150 items. -/
theorem search_events_cap_150_witness :
    (search_events (id : Nat → Nat) 150
      (fun _ => .response 200
        { embedded := some (List.range 150), totalPages := 99 })).1 =
      [(150, 0)] ∧
    (search_events (id : Nat → Nat) 150
      (fun _ => .response 200
        { embedded := some (List.range 150), totalPages := 99 })).2 =
      ((List.range 150).take 150).map id :=
  (search_events_cap_150 (id : Nat → Nat)
    (fun _ => .response 200
      { embedded := some (List.range 150), totalPages := 99 })).2.2
    (List.range 150) 99 0 rfl (by simp)

/-- C5: single-event lookup yields nothing when the client returns the
Failure sentinel; exactly one synthetic record on HTTP 404, whose event id is
the requested (stripped) id and whose name is a non-empty not-found
placeholder embedding that id; exactly one normalized record on HTTP 200;
and nothing on any other status (for instance 401, which the client maps to
Failure before this point). -/
theorem get_event_yield_cases (now cfg_event_id : String)
    (parse : String → Option ℚ) (stream : Nat → AttemptOutcome) :
    ((api_request parse stream).1 = none →
      get_event now cfg_event_id parse stream = Except.ok [])
  ∧ (∀ r, (api_request parse stream).1 = some r → r.status = 404 →
      get_event now cfg_event_id parse stream =
        Except.ok [{ event_name := "Event not found: " ++ py_strip cfg_event_id,
                     event_id := py_strip cfg_event_id,
                     scraped_at := now }] ∧
      ("Event not found: " ++ py_strip cfg_event_id) ≠ "")
  ∧ (∀ r rec, (api_request parse stream).1 = some r → r.status = 200 →
      event_to_record now r.body = Except.ok rec →
      get_event now cfg_event_id parse stream = Except.ok [rec])
  ∧ (∀ r, (api_request parse stream).1 = some r →
      r.status ≠ 404 → r.status ≠ 200 →
      get_event now cfg_event_id parse stream = Except.ok []) := by
  refine ⟨?_, ?_, ?_, ?_⟩
  · intro h; simp [get_event, h]
  · intro r h hs
    refine ⟨by simp [get_event, h, hs, not_found_record], ?_⟩
    intro hbad
    have hlen := congrArg String.length hbad
    simp [String.length_append] at hlen
    exact absurd hlen.1 (by decide)
  · intro r rec h hs hrec
    simp [get_event, h, hs, hrec, Except.map]
  · intro r h hs1 hs2
    simp [get_event, h, hs1, hs2]

/-- Witness for C5 at a concrete input: a 404 response for event id " X1 "
yields the synthetic not-found record for the stripped id "X1". -/
theorem get_event_yield_cases_witness :
    get_event ("t") (" X1 ") (fun _ => none)
      (fun _ => .response { status := 404 }) =
      Except.ok [{ event_name := "Event not found: " ++ py_strip (" X1 "),
                   event_id := py_strip (" X1 "),
                   scraped_at := "t" }] ∧
    ("Event not found: " ++ py_strip (" X1 ")) ≠ "" :=
  (get_event_yield_cases ("t") (" X1 ") (fun _ => none)
    (fun _ => .response { status := 404 })).2.1 { status := 404 } rfl rfl

/-- C8 counterexample: the claim states `validate_input` errors exactly on
violations of the §3 invariant, but a configuration with a blank API key and
a valid search filter violates none of the invariant clauses and still gets
an error. -/
theorem validate_input_api_key_counterexample :
    validate_input { keyword := "rock" } ≠ none ∧
    ¬ claim_invariant_violated { keyword := "rock" } := by
  constructor
  · decide
  · unfold claim_invariant_violated
    decide

/-- C8 amended: `validate_input` returns a non-null error string if and only
if the API key is blank after stripping, or the configuration violates the
stated invariant (invalid mode; `get_event` with blank event id; `search`
with no non-empty filter; invalid unit). -/
theorem validate_input_isSome_iff (c : ScraperInput) :
    (validate_input c).isSome ↔
      (py_strip c.api_key = "" ∨ claim_invariant_violated c) := by
  unfold validate_input claim_invariant_violated
  split_ifs with h1 h2 h3 h4 h5 <;> simp_all

/-- C10: every emitted record carries `schema_version = "1.0"`, and a `type`
discriminator equal to `"event"` for event records (the synthetic not-found
record included) and `"venue"` for venue records. -/
theorem records_carry_schema_and_type :
    (∀ now e r, event_to_record now e = Except.ok r →
      r.schema_version = "1.0" ∧ r.type = "event")
  ∧ (∀ now v r, venue_to_record now v = Except.ok r →
      r.schema_version = "1.0" ∧ r.type = "venue")
  ∧ (∀ eid now, (not_found_record eid now).schema_version = "1.0" ∧
      (not_found_record eid now).type = "event") := by
  refine ⟨?_, ?_, fun _ _ => ⟨rfl, rfl⟩⟩
  · intro now e r h
    unfold event_to_record at h
    repeat' first
      | (obtain ⟨_, _, h⟩ := h)
      | (split at h)
      | (simp only [ex_bind_ok] at h)
    all_goals exact ⟨rfl, rfl⟩
  · intro now v r h
    unfold venue_to_record at h
    repeat' first
      | (obtain ⟨_, _, h⟩ := h)
      | (split at h)
      | (simp only [ex_bind_ok] at h)
    all_goals exact ⟨rfl, rfl⟩

/-- Witness for C10 at a concrete input: the records normalized from the
empty JSON object carry the schema version and type discriminators. -/
theorem records_carry_schema_and_type_witness :
    (({ scraped_at := "t" } : EventRecord).schema_version = "1.0" ∧
     ({ scraped_at := "t" } : EventRecord).type = "event") ∧
    (({ scraped_at := "t" } : VenueRecord).schema_version = "1.0" ∧
     ({ scraped_at := "t" } : VenueRecord).type = "venue") :=
  ⟨records_carry_schema_and_type.1 ("t") (Json.obj []) { scraped_at := "t" } rfl,
   records_carry_schema_and_type.2.1 ("t") (Json.obj []) { scraped_at := "t" } rfl⟩

/-- Reduction of an `Except.ok` bind, for symbolic evaluation of the normalizers. -/
theorem ok_bind {α β : Type} (a : α) (f : α → Except String β) :
    (Except.ok a >>= f) = f a := rfl

/-- Reduction of an `Except.error` bind. -/
theorem error_bind {α β : Type} (e : String) (f : α → Except String β) :
    ((Except.error e : Except String α) >>= f) = Except.error e := rfl

/-- Reduction of `Except.map` on a success. -/
theorem map_ok {α β : Type} (f : α → β) (a : α) :
    (Except.ok a : Except String α).map f = Except.ok (f a) := rfl

/-- C3 (against the code): the claim says the normalizers never raise on
missing or null nested fields, but a JSON-null `dates` (event) or `location`
(venue) value reaches a `.get` call on `None` and raises `AttributeError`;
fields that are merely absent are defaulted as claimed. -/
theorem normalizers_raise_on_null_dict_fields :
    event_to_record ("t") (Json.obj [("dates", Json.null)]) =
      Except.error ("AttributeError: get called on non-dict")
  ∧ venue_to_record ("t") (Json.obj [("location", Json.null)]) =
      Except.error ("AttributeError: get called on non-dict")
  ∧ event_to_record ("t") (Json.obj []) = Except.ok { scraped_at := "t" }
  ∧ venue_to_record ("t") (Json.obj []) = Except.ok { scraped_at := "t" } :=
  ⟨rfl, rfl, rfl, rfl⟩

/-- The seen-set selection loop of the source equals the spec-side
remove-later-duplicates formulation, relative to any set of already-seen
ratio values. -/
theorem pickImages_eq_specPick (l : List (ℚ × Json × Json)) :
    ∀ seen, pickImages l seen =
      specPickImages (l.filter (fun q => q.2.2.truthy && !(memJ q.2.1 seen))) := by
  induction l with
  | nil => intro seen; simp [pickImages, specPickImages]
  | cons hd tl ih =>
    intro seen
    obtain ⟨w, rt, u⟩ := hd
    by_cases hu : u.truthy
    · by_cases hm : memJ rt seen
      · simp [pickImages, hu, hm, List.filter_cons, ih]
      · have hmf : memJ rt seen = false := by simpa using hm
        have lhs : pickImages ((w, rt, u) :: tl) seen =
            u :: pickImages tl (rt :: seen) := by
          simp [pickImages, hu, hmf]
        have rhs : List.filter (fun q => q.2.2.truthy && !(memJ q.2.1 seen))
            ((w, rt, u) :: tl) =
            (w, rt, u) :: tl.filter (fun q => q.2.2.truthy && !(memJ q.2.1 seen)) := by
          simp [List.filter_cons, hu, hmf]
        rw [lhs, rhs, specPickImages, ih (rt :: seen)]
        congr 1
        congr 1
        rw [List.filter_filter]
        apply List.filter_congr
        intro q hq
        cases h1 : q.2.2.truthy <;> cases h2 : Json.scalarEq q.2.1 rt <;>
          cases h3 : memJ q.2.1 seen <;> simp [memJ, h1, h2, h3]
    · have huf : u.truthy = false := by simpa using hu
      simp [pickImages, huf, List.filter_cons, ih]

/-- C6: the image list of the normalized event record is computed by sorting
the images by width descending and keeping, per distinct ratio value, the
first (hence highest-width) present url, in ratio-first-seen order — the
source's seen-set loop agrees with the spec-side formulation on every input
and, in particular, for three images of one ratio with widths 100, 800 and
400 the selection keeps exactly the url of the width-800 image. -/
theorem image_selection_dedup_matches_spec :
    (∀ imgs, selectImageUrls imgs = specSelectImageUrls imgs)
  ∧ (∀ now, (event_to_record now (Json.obj [("images", Json.arr
      [Json.obj [("width", Json.num 100), ("url", Json.str ("u100")),
                 ("ratio", Json.str ("r"))],
       Json.obj [("width", Json.num 800), ("url", Json.str ("u800")),
                 ("ratio", Json.str ("r"))],
       Json.obj [("width", Json.num 400), ("url", Json.str ("u400")),
                 ("ratio", Json.str ("r"))]])])).map (fun r => r.images) =
      Except.ok [("u800")]) := by
  constructor
  · intro imgs
    unfold selectImageUrls specSelectImageUrls
    cases hex : imgs.mapM extractImage with
    | error e => simp [hex, error_bind]
    | ok ex =>
      simp only [hex, ok_bind]
      rw [pickImages_eq_specPick]
      congr 1
      congr 1
      apply List.filter_congr
      intro q hq
      simp [memJ]
  · intro now
    exact rfl

/-- The field pattern `j.get("name", "") or ""` on an object carrying a
string under `"name"` yields exactly that string (an empty string falls back
to the empty default). -/
theorem getStrField_name_str (s : String) :
    getStrField (Json.obj [("name", Json.str s)]) ("name") = Except.ok s := by
  by_cases h : s = ""
  · subst h; rfl
  · simp [getStrField, Json.get, lookupKey, pyOr, Json.truthy, Json.asStr,
      ok_bind, bind, Except.bind, h]

/-- C7: the normalizer takes the first classification entry, extracts the
segment, genre and sub-genre names, maps the literal `"Undefined"` to the
empty string, and passes any other value through unchanged — stated for
arbitrary name strings on the classification extractor that
`_event_to_record` uses (a second classification entry is present and
ignored), together with an end-to-end instance on the full normalizer. -/
theorem classification_undefined_to_empty (now s g sb : String) :
    classificationNames (Json.arr
      [Json.obj [("segment", Json.obj [("name", Json.str s)]),
                 ("genre", Json.obj [("name", Json.str g)]),
                 ("subGenre", Json.obj [("name", Json.str sb)])],
       Json.obj [("segment", Json.obj [("name", Json.str ("Music"))]),
                 ("genre", Json.obj [("name", Json.str ("Rock"))]),
                 ("subGenre", Json.obj [("name", Json.str ("Alt"))])]]) =
      Except.ok (if s = "Undefined" then ("") else s,
                 if g = "Undefined" then ("") else g,
                 if sb = "Undefined" then ("") else sb)
  ∧ (event_to_record now (Json.obj [("classifications", Json.arr
      [Json.obj [("segment", Json.obj [("name", Json.str ("Undefined"))]),
                 ("genre", Json.obj [("name", Json.str ("Rock"))]),
                 ("subGenre", Json.obj [("name", Json.str ("Undefined"))])],
       Json.obj [("segment", Json.obj [("name", Json.str ("Music"))]),
                 ("genre", Json.obj [("name", Json.str ("Rock"))]),
                 ("subGenre", Json.obj [("name", Json.str ("Alt"))])]])])).map
      (fun r => (r.segment, r.genre, r.sub_genre)) =
    Except.ok (("" : String), ("Rock" : String), ("" : String)) := by
  constructor
  · simp [classificationNames, getStrField_name_str, Json.truthy, Json.item0,
      Json.get, lookupKey, ok_bind, bind, Except.bind]
  · exact rfl

/-- Witness for C6 at a concrete input: the source-side and spec-side image
selections agree on a one-image list. -/
theorem image_selection_dedup_matches_spec_witness :
    selectImageUrls [Json.obj [("width", Json.num 7), ("url", Json.str ("u")),
      ("ratio", Json.str ("r"))]] =
    specSelectImageUrls [Json.obj [("width", Json.num 7),
      ("url", Json.str ("u")), ("ratio", Json.str ("r"))]] :=
  image_selection_dedup_matches_spec.1 _

/-- Witness for C7 at concrete inputs: the literal placeholder is blanked and
other values pass through. -/
theorem classification_undefined_to_empty_witness :
    classificationNames (Json.arr
      [Json.obj [("segment", Json.obj [("name", Json.str ("Undefined"))]),
                 ("genre", Json.obj [("name", Json.str ("Rock"))]),
                 ("subGenre", Json.obj [("name", Json.str (""))])],
       Json.obj [("segment", Json.obj [("name", Json.str ("Music"))]),
                 ("genre", Json.obj [("name", Json.str ("Rock"))]),
                 ("subGenre", Json.obj [("name", Json.str ("Alt"))])]]) =
      Except.ok (if ("Undefined" : String) = "Undefined" then ("") else "Undefined",
                 if ("Rock" : String) = "Undefined" then ("") else "Rock",
                 if ("" : String) = "Undefined" then ("") else "") :=
  (classification_undefined_to_empty ("t") ("Undefined") ("Rock") ("")).1

/-- Witness for the amended C8 statement at a concrete configuration. -/
theorem validate_input_isSome_iff_witness :
    (validate_input { keyword := "rock" }).isSome ↔
      (py_strip ("") = "" ∨ claim_invariant_violated { keyword := "rock" }) :=
  validate_input_isSome_iff { keyword := "rock" }

end TicketScraper
